import Mathlib

/-!
Shallow embedding of the MCP python-sdk server session
(src/src/mcp/server/session.py): the lifecycle state machine and the
protocol-conformance dispatcher of `ServerSession`, together with the
typed outbound builders.

Modelling conventions:
- The mutable field `self._initialization_state` becomes explicit state
  passing: each inbound handler takes the state before the call and
  returns the state after it, together with the observable effects
  (responses sent through the responder, a raised RuntimeError, whether
  the message reaches the domain handler).
- `mcp.types` and `mcp.server.models` are not under src/; the message
  kinds, the InitializationOptions record and the protocol-version
  constant are modelled from the spec.  The dispatcher only branches on
  whether a message is the distinguished handshake kind, so other kinds
  are carried opaquely as strings.
- Wire numbers that the core merely passes through (progress values)
  are modelled as rationals; no arithmetic is ever performed on them.
-/

namespace MCP

/-- The InitializationState enum of session.py (lines 17-20):
NotInitialized = 1, Initializing = 2, Initialized = 3. -/
inductive InitializationState where
  | NotInitialized
  | Initializing
  | Initialized
deriving DecidableEq, Repr

/-- The numeric value each state carries in the Python Enum declaration. -/
def InitializationState.value : InitializationState → Nat
  | .NotInitialized => 1
  | .Initializing => 2
  | .Initialized => 3

/-- Modelled from the spec: the inbound request kinds of mcp.types
(mcp.types is not under src/).  `_received_request` branches only on
whether the request is the distinguished InitializeRequest; every other
request kind is forwarded verbatim, so it is carried opaquely. -/
inductive ClientRequest where
  | InitializeRequest (requestedVersion : String)
  | OtherRequest (kind : String)
deriving DecidableEq, Repr

/-- Modelled from the spec: the inbound notification kinds of mcp.types.
`_received_notification` branches only on whether the notification is
the distinguished InitializedNotification (the acknowledgment). -/
inductive ClientNotification where
  | InitializedNotification
  | OtherNotification (kind : String)
deriving DecidableEq, Repr

/-- An inbound message: delivered one at a time, in arrival order, by
the transport session (spec section 5). -/
inductive ClientMessage where
  | request (r : ClientRequest)
  | notification (n : ClientNotification)
deriving DecidableEq, Repr

/-- True exactly on the two handshake message kinds. -/
def ClientMessage.isHandshake : ClientMessage → Bool
  | .request (.InitializeRequest _) => true
  | .notification .InitializedNotification => true
  | .request (.OtherRequest _) => false
  | .notification (.OtherNotification _) => false

/-- True exactly on an InitializeRequest message. -/
def ClientMessage.isInitRequest : ClientMessage → Bool
  | .request (.InitializeRequest _) => true
  | _ => false

/-- Modelled from the spec: InitializationOptions (mcp.server.models is
not under src/): server identity plus the declared capability set.  The
core never inspects the capabilities, so their type is a parameter. -/
structure InitializationOptions (Cap : Type) where
  server_name : String
  server_version : String
  capabilities : Cap
deriving DecidableEq, Repr

/-- Modelled from the spec: types.Implementation, the server identity
record placed in the handshake reply. -/
structure Implementation where
  name : String
  version : String
deriving DecidableEq, Repr

/-- Modelled from the spec: types.LATEST_PROTOCOL_VERSION, the fixed
declared protocol version constant (its exact text is irrelevant to the
claims, which only require the reply to equal this constant). -/
def LATEST_PROTOCOL_VERSION : String := "2024-11-05"

/-- Modelled from the spec: types.InitializeResult, the handshake reply
body built at session.py lines 54-61. -/
structure InitializeResult (Cap : Type) where
  protocolVersion : String
  capabilities : Cap
  serverInfo : Implementation
deriving DecidableEq, Repr

/-- Modelled from the spec: the RequestResponder handed to
`_received_request` by the transport session; it carries the inbound
request and that request's own correlation id, and `respond` delivers a
reply on that id. -/
structure RequestResponder where
  requestId : Nat
  request : ClientRequest
deriving DecidableEq, Repr

/-- The observable outcome of one `_received_request` call: the state
after the call, the replies delivered through `responder.respond`
(paired with the correlation id they are sent on), the RuntimeError
message if one was raised, and whether the request was accepted for the
domain handler (returned normally on the non-handshake branch). -/
structure RequestStep (Cap : Type) where
  state : InitializationState
  responses : List (Nat × InitializeResult Cap)
  error : Option String
  forwarded : Bool
deriving DecidableEq, Repr

/-- The observable outcome of one `_received_notification` call.
Notifications have no reply channel, so there is no responses field. -/
structure NotificationStep where
  state : InitializationState
  error : Option String
  forwarded : Bool
deriving DecidableEq, Repr

/-- session.py lines 46-68, `ServerSession._received_request`:
on an InitializeRequest, set the state to Initializing and respond with
the InitializeResult built from the init options; on any other request,
raise a RuntimeError unless the state is Initialized. -/
def received_request {Cap : Type} (opts : InitializationOptions Cap)
    (st : InitializationState) (responder : RequestResponder) :
    RequestStep Cap :=
  match responder.request with
  | .InitializeRequest _ =>
      { state := .Initializing
        responses := [(responder.requestId,
          { protocolVersion := LATEST_PROTOCOL_VERSION
            capabilities := opts.capabilities
            serverInfo := { name := opts.server_name
                            version := opts.server_version } })]
        error := none
        forwarded := false }
  | .OtherRequest _ =>
      if st ≠ InitializationState.Initialized then
        { state := st
          responses := []
          error := some "Received request before initialization was complete"
          forwarded := false }
      else
        { state := st
          responses := []
          error := none
          forwarded := true }

/-- session.py lines 70-82, `ServerSession._received_notification`:
on an InitializedNotification, set the state to Initialized; on any
other notification, raise a RuntimeError unless the state is
Initialized.  (The anyio checkpoint on line 74 is a scheduling point
with no observable effect and is not modelled.) -/
def received_notification (st : InitializationState)
    (n : ClientNotification) : NotificationStep :=
  match n with
  | .InitializedNotification =>
      { state := .Initialized, error := none, forwarded := false }
  | .OtherNotification _ =>
      if st ≠ InitializationState.Initialized then
        { state := st
          error := some "Received notification before initialization was complete"
          forwarded := false }
      else
        { state := st, error := none, forwarded := true }

/-- The combined observable outcome of dispatching one inbound message. -/
structure DispatchStep (Cap : Type) where
  state : InitializationState
  responses : List (Nat × InitializeResult Cap)
  error : Option String
  forwarded : Bool
deriving DecidableEq, Repr

/-- Dispatch of one inbound message, requests through
`received_request` and notifications through `received_notification`.
The correlation id is fixed at 0 here because the state, the error and
the forwarding decision do not depend on it. -/
def dispatch {Cap : Type} (opts : InitializationOptions Cap)
    (st : InitializationState) : ClientMessage → DispatchStep Cap
  | .request r =>
      let s := received_request opts st { requestId := 0, request := r }
      { state := s.state, responses := s.responses
        error := s.error, forwarded := s.forwarded }
  | .notification n =>
      let s := received_notification st n
      { state := s.state, responses := []
        error := s.error, forwarded := s.forwarded }

/-- The state transition performed by one inbound dispatch, read off
the two handlers: an InitializeRequest always moves to Initializing, an
InitializedNotification always moves to Initialized, and every other
message leaves the state unchanged (also when it raises). -/
def stepState (st : InitializationState) : ClientMessage → InitializationState
  | .request (.InitializeRequest _) => .Initializing
  | .request (.OtherRequest _) => st
  | .notification .InitializedNotification => .Initialized
  | .notification (.OtherNotification _) => st

/-- The state after a session starting in `st` has processed the
messages `ms` one at a time, in order. -/
def runState (st : InitializationState) (ms : List ClientMessage) :
    InitializationState :=
  ms.foldl stepState st

/-- Modelled from the spec: a progress token is a string or an integer
(the `str | int` parameter of send_progress_notification). -/
inductive ProgressToken where
  | str (s : String)
  | int (i : Int)
deriving DecidableEq, Repr

/-- Modelled from the spec: the parameter payloads of the outbound
notification kinds built in session.py lines 84-211.  Opaque wire data
(the logging level, the log payload, the uri) is carried as strings;
numeric progress values as rationals. -/
inductive NotificationParams where
  | empty
  | loggingMessage (level : String) (data : String) (logger : Option String)
  | resourceUpdated (uri : String)
  | progress (progressToken : ProgressToken) (progress : ℚ) (total : Option ℚ)
deriving DecidableEq, Repr

/-- An outbound notification envelope: the wire method name set by the
builder, plus its parameters. -/
structure WireNotification where
  method : String
  params : NotificationParams
deriving DecidableEq, Repr

/-- Modelled from the spec: one role/content sampling message. -/
structure SamplingMessage where
  role : String
  content : String
deriving DecidableEq, Repr

/-- Modelled from the spec: the parameter payloads of the outbound
request kinds (ping and roots/list carry no parameters; createMessage
carries the sampling inputs of session.py lines 112-142). -/
inductive RequestParams where
  | empty
  | createMessage (messages : List SamplingMessage) (systemPrompt : Option String)
      (includeContext : Option String) (temperature : Option ℚ) (maxTokens : Int)
      (stopSequences : Option (List String)) (metadata : Option String)
      (modelPreferences : Option String)
deriving DecidableEq, Repr

/-- An outbound request envelope: the wire method name set by the
builder, plus its parameters. -/
structure WireRequest where
  method : String
  params : RequestParams
deriving DecidableEq, Repr

/-!
The nine outbound builders of session.py lines 84-211, in state-passing
form: each takes the lifecycle state before the call and returns the
state after it together with the envelope handed to the transport
session.  None of the Python bodies reads or writes
`self._initialization_state`, so each returns the input state.
-/

/-- session.py lines 84-99, send_log_message. -/
def send_log_message (st : InitializationState) (level : String)
    (data : String) (logger : Option String) :
    InitializationState × WireNotification :=
  (st, { method := "notifications/message"
         params := .loggingMessage level data logger })

/-- session.py lines 101-110, send_resource_updated. -/
def send_resource_updated (st : InitializationState) (uri : String) :
    InitializationState × WireNotification :=
  (st, { method := "notifications/resources/updated"
         params := .resourceUpdated uri })

/-- session.py lines 112-142, create_message. -/
def create_message (st : InitializationState) (messages : List SamplingMessage)
    (maxTokens : Int) (systemPrompt : Option String)
    (includeContext : Option String) (temperature : Option ℚ)
    (stopSequences : Option (List String)) (metadata : Option String)
    (modelPreferences : Option String) :
    InitializationState × WireRequest :=
  (st, { method := "sampling/createMessage"
         params := .createMessage messages systemPrompt includeContext
           temperature maxTokens stopSequences metadata modelPreferences })

/-- session.py lines 144-153, list_roots. -/
def list_roots (st : InitializationState) :
    InitializationState × WireRequest :=
  (st, { method := "roots/list", params := .empty })

/-- session.py lines 155-164, send_ping. -/
def send_ping (st : InitializationState) :
    InitializationState × WireRequest :=
  (st, { method := "ping", params := .empty })

/-- session.py lines 166-181, send_progress_notification. -/
def send_progress_notification (st : InitializationState)
    (progress_token : ProgressToken) (progress : ℚ) (total : Option ℚ) :
    InitializationState × WireNotification :=
  (st, { method := "notifications/progress"
         params := .progress progress_token progress total })

/-- session.py lines 183-191, send_resource_list_changed. -/
def send_resource_list_changed (st : InitializationState) :
    InitializationState × WireNotification :=
  (st, { method := "notifications/resources/list_changed", params := .empty })

/-- session.py lines 193-201, send_tool_list_changed. -/
def send_tool_list_changed (st : InitializationState) :
    InitializationState × WireNotification :=
  (st, { method := "notifications/tools/list_changed", params := .empty })

/-- session.py lines 203-211, send_prompt_list_changed. -/
def send_prompt_list_changed (st : InitializationState) :
    InitializationState × WireNotification :=
  (st, { method := "notifications/prompts/list_changed", params := .empty })

/-- A concrete InitializationOptions value used by closed theorems. -/
def optsU : InitializationOptions Unit :=
  { server_name := "srv", server_version := "1.0", capabilities := () }

/-- The handshake reply `received_request` builds from the options. -/
def initReply {Cap : Type} (opts : InitializationOptions Cap) :
    InitializeResult Cap :=
  { protocolVersion := LATEST_PROTOCOL_VERSION
    capabilities := opts.capabilities
    serverInfo := { name := opts.server_name
                    version := opts.server_version } }

/-!
## Helper lemmas
-/

/-- The state component of `received_request` agrees with `stepState`
and does not depend on the options or the correlation id. -/
theorem received_request_state_eq {Cap : Type} (opts : InitializationOptions Cap)
    (st : InitializationState) (rid : Nat) (r : ClientRequest) :
    (received_request opts st { requestId := rid, request := r }).state
      = stepState st (.request r) := by
  cases r <;> cases st <;> rfl

/-- The state component of `received_notification` agrees with
`stepState`. -/
theorem received_notification_state_eq (st : InitializationState)
    (n : ClientNotification) :
    (received_notification st n).state = stepState st (.notification n) := by
  cases n <;> cases st <;> rfl

/-- The state component of `dispatch` agrees with `stepState`. -/
theorem dispatch_state_eq {Cap : Type} (opts : InitializationOptions Cap)
    (st : InitializationState) (m : ClientMessage) :
    (dispatch opts st m).state = stepState st m := by
  cases m with
  | request r => cases r <;> cases st <;> rfl
  | notification n => cases n <;> cases st <;> rfl

/-- From Initialized, any message other than an InitializeRequest leaves
the state at Initialized. -/
theorem stepState_of_initialized (m : ClientMessage)
    (h : m.isInitRequest = false) :
    stepState .Initialized m = .Initialized := by
  cases m with
  | request r =>
      cases r with
      | InitializeRequest v => simp [ClientMessage.isInitRequest] at h
      | OtherRequest k => rfl
  | notification n => cases n <;> rfl

/-- A run that starts at Initialized and contains no InitializeRequest
ends at Initialized. -/
theorem runState_initialized_of_no_init :
    ∀ (tail : List ClientMessage),
      (∀ x ∈ tail, x.isInitRequest = false) →
      runState .Initialized tail = .Initialized := by
  intro tail
  induction tail with
  | nil => intro _; rfl
  | cons x xs ih =>
      intro ht
      have hx : x.isInitRequest = false := ht x (List.mem_cons_self x xs)
      have hstep : stepState .Initialized x = .Initialized :=
        stepState_of_initialized x hx
      have hxs : ∀ y ∈ xs, y.isInitRequest = false :=
        fun y hy => ht y (List.mem_cons_of_mem x hy)
      calc runState .Initialized (x :: xs)
          = runState (stepState .Initialized x) xs := rfl
        _ = runState .Initialized xs := by rw [hstep]
        _ = .Initialized := ih hxs

/-- Dispatching a non-handshake message in a state other than
Initialized raises the ordering RuntimeError and does not forward. -/
theorem dispatch_rejects {Cap : Type} (opts : InitializationOptions Cap)
    (st : InitializationState) (m : ClientMessage)
    (hm : m.isHandshake = false) (hst : st ≠ .Initialized) :
    (dispatch opts st m).error ≠ none
    ∧ (dispatch opts st m).forwarded = false := by
  cases m with
  | request r =>
      cases r with
      | InitializeRequest v => simp [ClientMessage.isHandshake] at hm
      | OtherRequest k => simp [dispatch, received_request, hst]
  | notification n =>
      cases n with
      | InitializedNotification => simp [ClientMessage.isHandshake] at hm
      | OtherNotification k => simp [dispatch, received_notification, hst]

/-- Dispatching a non-handshake message in the Initialized state raises
no error and forwards the message to the domain handler. -/
theorem dispatch_accepts {Cap : Type} (opts : InitializationOptions Cap)
    (m : ClientMessage) (hm : m.isHandshake = false) :
    (dispatch opts .Initialized m).error = none
    ∧ (dispatch opts .Initialized m).forwarded = true := by
  cases m with
  | request r =>
      cases r with
      | InitializeRequest v => simp [ClientMessage.isHandshake] at hm
      | OtherRequest k => simp [dispatch, received_request]
  | notification n =>
      cases n with
      | InitializedNotification => simp [ClientMessage.isHandshake] at hm
      | OtherNotification k => simp [dispatch, received_notification]

/-!
## Claim theorems
-/

/-- C1 counterexample: the claim as stated is false.  In the trace
init, ack, init the acknowledgment notification has been processed,
yet the subsequent non-handshake ping request fails with the ordering
RuntimeError, because the repeated InitializeRequest moved the state
back to Initializing. -/
theorem C1_counterexample :
    runState .NotInitialized
        [ .request (.InitializeRequest "2024-11-05"),
          .notification .InitializedNotification,
          .request (.InitializeRequest "2024-11-05") ]
      = .Initializing
    ∧ (dispatch optsU
        (runState .NotInitialized
          [ .request (.InitializeRequest "2024-11-05"),
            .notification .InitializedNotification,
            .request (.InitializeRequest "2024-11-05") ])
        (.request (.OtherRequest "ping"))).error
      = some "Received request before initialization was complete" :=
  ⟨rfl, rfl⟩

/-- C1 (amended): any non-handshake request or notification dispatched
while the state is NotInitialized or Initializing fails with the
ordering RuntimeError; and once the acknowledgment notification has
been processed, as long as no further InitializeRequest has been
processed since it, the state is Initialized and every non-handshake
message is accepted (no error, forwarded to the domain handler). -/
theorem C1_ordering_amended {Cap : Type} (opts : InitializationOptions Cap)
    (st : InitializationState) (ms tail : List ClientMessage)
    (m : ClientMessage) (hm : m.isHandshake = false)
    (ht : ∀ x ∈ tail, x.isInitRequest = false) :
    ((st = .NotInitialized ∨ st = .Initializing) →
        (dispatch opts st m).error ≠ none)
    ∧ runState .NotInitialized
        (ms ++ ClientMessage.notification .InitializedNotification :: tail)
        = .Initialized
    ∧ (dispatch opts .Initialized m).error = none
    ∧ (dispatch opts .Initialized m).forwarded = true := by
  refine ⟨?_, ?_, (dispatch_accepts opts m hm).1, (dispatch_accepts opts m hm).2⟩
  · intro hst
    have hne : st ≠ .Initialized := by
      rcases hst with h | h <;> simp [h]
    exact (dispatch_rejects opts st m hm hne).1
  · have h1 : runState .NotInitialized
        (ms ++ ClientMessage.notification .InitializedNotification :: tail)
        = runState (runState .NotInitialized ms)
            (ClientMessage.notification .InitializedNotification :: tail) := by
      simp [runState, List.foldl_append]
    rw [h1]
    show runState
        (stepState (runState .NotInitialized ms)
          (ClientMessage.notification .InitializedNotification)) tail
      = .Initialized
    rw [show stepState (runState .NotInitialized ms)
          (ClientMessage.notification .InitializedNotification)
        = .Initialized from rfl]
    exact runState_initialized_of_no_init tail ht

/-- C1 witness: the amended theorem applied at a concrete instance. -/
theorem C1_ordering_amended_witness :
    ((InitializationState.NotInitialized = InitializationState.NotInitialized
        ∨ InitializationState.NotInitialized = InitializationState.Initializing) →
      (dispatch optsU .NotInitialized
        (.request (.OtherRequest "ping"))).error ≠ none)
    ∧ runState .NotInitialized
        ([] ++ ClientMessage.notification .InitializedNotification :: [])
        = .Initialized
    ∧ (dispatch optsU .Initialized (.request (.OtherRequest "ping"))).error = none
    ∧ (dispatch optsU .Initialized
        (.request (.OtherRequest "ping"))).forwarded = true :=
  C1_ordering_amended optsU .NotInitialized [] []
    (.request (.OtherRequest "ping")) rfl (by simp)

/-- C2 counterexample: the claim as stated is false.  After the full
handshake the state is Initialized (enum value 3); dispatching a second
InitializeRequest moves it back to Initializing (enum value 2), a
strictly decreasing transition. -/
theorem C2_counterexample :
    runState .NotInitialized
        [ .request (.InitializeRequest "2024-11-05"),
          .notification .InitializedNotification ]
      = .Initialized
    ∧ stepState .Initialized (.request (.InitializeRequest "2024-11-05"))
      = .Initializing
    ∧ InitializationState.Initializing.value
      < InitializationState.Initialized.value :=
  ⟨rfl, rfl, by decide⟩

/-- C2 (amended): every inbound dispatch is non-decreasing on the state
order, except for the single backward transition Initialized to
Initializing caused by a repeated InitializeRequest; in particular no
dispatch ever returns the state to NotInitialized once it has left it. -/
theorem C2_monotonic_amended (st : InitializationState) (m : ClientMessage) :
    (st.value ≤ (stepState st m).value
      ∨ (st = .Initialized ∧ stepState st m = .Initializing
          ∧ m.isInitRequest = true))
    ∧ (st ≠ .NotInitialized → stepState st m ≠ .NotInitialized) := by
  cases m with
  | request r =>
      cases r with
      | InitializeRequest v =>
          cases st <;>
            simp [stepState, InitializationState.value, ClientMessage.isInitRequest]
      | OtherRequest k =>
          cases st <;> simp [stepState, InitializationState.value]
  | notification n =>
      cases n with
      | InitializedNotification =>
          cases st <;> simp [stepState, InitializationState.value]
      | OtherNotification k =>
          cases st <;> simp [stepState, InitializationState.value]

/-- C2 witness: the amended theorem applied at a concrete instance. -/
theorem C2_monotonic_amended_witness :
    stepState .Initializing (.notification (.OtherNotification "log"))
      ≠ .NotInitialized :=
  (C2_monotonic_amended .Initializing
    (.notification (.OtherNotification "log"))).2 (by decide)

/-- C3: with options name srv, version 1.0 and capability set C, the
handshake reply carries serverInfo name srv version 1.0, capabilities
C, and protocolVersion LATEST_PROTOCOL_VERSION, on the request's own
correlation id, in every lifecycle state. -/
theorem C3_handshake_reply_shape {Cap : Type} (C : Cap)
    (st : InitializationState) (rid : Nat) (v : String) :
    (received_request
        { server_name := "srv", server_version := "1.0", capabilities := C }
        st { requestId := rid, request := .InitializeRequest v }).responses
      = [(rid,
          { protocolVersion := LATEST_PROTOCOL_VERSION
            capabilities := C
            serverInfo := { name := "srv", version := "1.0" } })] :=
  rfl

/-- C4: processing the acknowledgment notification while the state is
already Initialized raises no error and leaves the state Initialized. -/
theorem C4_ack_idempotent :
    received_notification .Initialized .InitializedNotification
      = { state := .Initialized, error := none, forwarded := false } :=
  rfl

/-- C5: for every InitializeRequest, the handshake reply is delivered
exactly once, through the responder of that request, so it carries the
request's own correlation id. -/
theorem C5_reply_exactly_once {Cap : Type} (opts : InitializationOptions Cap)
    (st : InitializationState) (rid : Nat) (v : String) :
    (received_request opts st
        { requestId := rid, request := .InitializeRequest v }).responses
      = [(rid, initReply opts)]
    ∧ (received_request opts st
        { requestId := rid, request := .InitializeRequest v }).responses.length
      = 1 :=
  ⟨rfl, rfl⟩

/-- C6: every outbound catalogue operation leaves the lifecycle state
unchanged, and the envelope it builds does not depend on the lifecycle
state: outbound traffic is not gated on initialization. -/
theorem C6_outbound_frame (st st2 : InitializationState)
    (level data : String) (logger : Option String) (uri : String)
    (messages : List SamplingMessage) (maxTokens : Int)
    (systemPrompt includeContext : Option String) (temperature : Option ℚ)
    (stopSequences : Option (List String))
    (metadata modelPreferences : Option String)
    (t : ProgressToken) (p : ℚ) (total : Option ℚ) :
    ((send_log_message st level data logger).1 = st
      ∧ (send_log_message st level data logger).2
        = (send_log_message st2 level data logger).2)
    ∧ ((send_resource_updated st uri).1 = st
      ∧ (send_resource_updated st uri).2 = (send_resource_updated st2 uri).2)
    ∧ ((create_message st messages maxTokens systemPrompt includeContext
          temperature stopSequences metadata modelPreferences).1 = st
      ∧ (create_message st messages maxTokens systemPrompt includeContext
          temperature stopSequences metadata modelPreferences).2
        = (create_message st2 messages maxTokens systemPrompt includeContext
            temperature stopSequences metadata modelPreferences).2)
    ∧ ((list_roots st).1 = st ∧ (list_roots st).2 = (list_roots st2).2)
    ∧ ((send_ping st).1 = st ∧ (send_ping st).2 = (send_ping st2).2)
    ∧ ((send_progress_notification st t p total).1 = st
      ∧ (send_progress_notification st t p total).2
        = (send_progress_notification st2 t p total).2)
    ∧ ((send_resource_list_changed st).1 = st
      ∧ (send_resource_list_changed st).2 = (send_resource_list_changed st2).2)
    ∧ ((send_tool_list_changed st).1 = st
      ∧ (send_tool_list_changed st).2 = (send_tool_list_changed st2).2)
    ∧ ((send_prompt_list_changed st).1 = st
      ∧ (send_prompt_list_changed st).2 = (send_prompt_list_changed st2).2) :=
  ⟨⟨rfl, rfl⟩, ⟨rfl, rfl⟩, ⟨rfl, rfl⟩, ⟨rfl, rfl⟩, ⟨rfl, rfl⟩,
    ⟨rfl, rfl⟩, ⟨rfl, rfl⟩, ⟨rfl, rfl⟩, ⟨rfl, rfl⟩⟩

/-- C7: a non-handshake message dispatched while the state is not
Initialized raises the ordering RuntimeError inside the dispatch path
and is never forwarded to the domain handler. -/
theorem C7_violation_before_domain {Cap : Type}
    (opts : InitializationOptions Cap) (st : InitializationState)
    (m : ClientMessage) (hm : m.isHandshake = false)
    (hst : st ≠ .Initialized) :
    (dispatch opts st m).error ≠ none
    ∧ (dispatch opts st m).forwarded = false :=
  dispatch_rejects opts st m hm hst

/-- C7 witness: the theorem applied at a concrete instance. -/
theorem C7_violation_before_domain_witness :
    (dispatch optsU .NotInitialized
        (.request (.OtherRequest "tools/list"))).error ≠ none
    ∧ (dispatch optsU .NotInitialized
        (.request (.OtherRequest "tools/list"))).forwarded = false :=
  C7_violation_before_domain optsU .NotInitialized
    (.request (.OtherRequest "tools/list")) rfl (by decide)

/-- C8: send_ping builds a request with method ping and no parameters;
send_progress_notification with token t, progress p and optional total
builds a notification with method notifications/progress whose
parameters are exactly the progress token, the progress value and the
total. -/
theorem C8_wire_methods (st : InitializationState) (t : ProgressToken)
    (p : ℚ) (total : Option ℚ) :
    (send_ping st).2 = { method := "ping", params := RequestParams.empty }
    ∧ (send_progress_notification st t p total).2
      = { method := "notifications/progress"
          params := NotificationParams.progress t p total } :=
  ⟨rfl, rfl⟩

/-- C9: an InitializeRequest is re-answered with the full handshake
reply in every lifecycle state, never rejected, and always sets the
state to Initializing, also when the state was already Initialized. -/
theorem C9_reinit_always_reanswered {Cap : Type}
    (opts : InitializationOptions Cap) (st : InitializationState)
    (rid : Nat) (v : String) :
    (received_request opts st
        { requestId := rid, request := .InitializeRequest v }).error = none
    ∧ (received_request opts st
        { requestId := rid, request := .InitializeRequest v }).state
      = .Initializing
    ∧ (received_request opts st
        { requestId := rid, request := .InitializeRequest v }).responses
      = [(rid, initReply opts)] :=
  ⟨rfl, rfl, rfl⟩

/-- C10: the acknowledgment notification processed while the state is
NotInitialized raises no error and sets the state directly to
Initialized, skipping Initializing. -/
theorem C10_ack_from_not_initialized :
    received_notification .NotInitialized .InitializedNotification
      = { state := .Initialized, error := none, forwarded := false } :=
  rfl

end MCP
